import Mathlib

/-!
Verification of the line-follower control core (src/main.c) against its
natural-language specification.

The development shallowly embeds the C program: 8-bit `char` variables become
`Nat` values reduced modulo 256 wherever overflow is possible, pointer
in-out parameters become explicit arguments and returned values, the fixed
ring of three IR sensors becomes an enumerated type with field functions,
and the side effects of the recovery paths (display writes, delays, motor
commands, sleep) become an explicit list of emitted actions.  Functions
whose definitions live in external headers (go_button.h, ir_sensors.h,
encoders.h) and are not part of the repository are modelled from the
specification text; each such definition carries a doc comment saying so.
-/

/-- Number of readings each analog sensor takes per stint (main.c line 44). -/
def READINGS_MAX : Nat := 2

/-- Binarization cutoff for the IR sensors (main.c line 46). -/
def ADC_CUTOFF : Nat := 3500

/-- The fixed ring of three IR sensors.  In the source these are the three
`struct IRSensor` globals `IR_1`, `IR_2`, `IR_3` (main.c lines 71-73); the
shallow embedding replaces the pointer ring by an enumerated identity plus
field functions. -/
inductive SensorId where
  | IR_1
  | IR_2
  | IR_3
deriving DecidableEq

/-- The `index` field of each sensor: its bit position in the line pattern
(second initializer of each struct, main.c lines 71-73). -/
def SensorId.index : SensorId → Nat
  | .IR_1 => 0
  | .IR_2 => 1
  | .IR_3 => 2

/-- The `led` field of each sensor: its bit position in the display byte
(third initializer of each struct, main.c lines 71-73). -/
def SensorId.led : SensorId → Nat
  | .IR_1 => 6
  | .IR_2 => 5
  | .IR_3 => 4

/-- The `next_sensor` ring-successor pointers set up in `init`
(main.c lines 210-212): IR_1 → IR_2 → IR_3 → IR_1. -/
def SensorId.next_sensor : SensorId → SensorId
  | .IR_1 => .IR_2
  | .IR_2 => .IR_3
  | .IR_3 => .IR_1

/-- Result of `convert_array_to_inputs` (main.c lines 293-342).  The C
function writes through two pointers `dcR`/`dcL` and returns a status `char`
that is assigned only when one of the eight cases matches; the embedding
returns the final values of the two pointed-to cells together with
`some status`, or `none` for the fall-through where `status` stays
uninitialized. -/
structure ClassifierOut where
  dcR : Int
  dcL : Int
  status : Option Nat
deriving DecidableEq

/-- `convert_array_to_inputs` (main.c lines 293-342): maps the 3-bit line
pattern `meas` to motor duty cycles and a status.  `dcR`/`dcL` are the values
held by the pointed-to cells on entry; the fault cases leave them untouched. -/
def convert_array_to_inputs (dcR dcL : Int) (meas : Nat) : ClassifierOut :=
  match meas with
  | 0 => ⟨dcR, dcL, some 1⟩
  | 5 => ⟨dcR, dcL, some 1⟩
  | 7 => ⟨dcR, dcL, some 2⟩
  | 1 => ⟨50, 0, some 0⟩
  | 3 => ⟨35, 15, some 0⟩
  | 2 => ⟨25, 25, some 0⟩
  | 6 => ⟨15, 35, some 0⟩
  | 4 => ⟨0, 50, some 0⟩
  | _ => ⟨dcR, dcL, none⟩

/-- Side effects performed by the main loop and the control-period handler:
calls into the external collaborators and busy delays.  The embedding records
them as an emitted trace. -/
inductive Act where
  | pauseDelivery
  | executeDelivery
  | loadByte (b : Nat)
  | delayMs (t : Nat)
  | motorsDrive (dcR dcL : Int)
  | motorsTurnAround
  | enterSleepMode
  | enableADCInterrupt
deriving DecidableEq

/-- The go latch and the two fault counters (main.c lines 58-63).  All four
are 8-bit `char` globals; the counters are reduced modulo 256 where they are
incremented. -/
structure FaultState where
  go_flag : Nat
  go_flag_0 : Nat
  count_lost : Nat
  count_stop : Nat
deriving DecidableEq

/-- The control-period branch of `LoPriISR` (main.c lines 430-455): run the
classifier on `IR_meas_array` and either drive the motors and clear both
counters (status 0), or increment exactly one fault counter (status 1 / 2).
`junkR`/`junkL` are the unspecified initial contents of the uninitialized
locals `DCRight`/`DCLeft`; the classifier leaves them in place on the fault
statuses. -/
def control_tick (meas : Nat) (junkR junkL : Int) (s : FaultState) :
    FaultState × List Act :=
  let out := convert_array_to_inputs junkR junkL meas
  if out.status = some 0 then
    ({ s with count_lost := 0, count_stop := 0 },
     [Act.motorsDrive out.dcR out.dcL])
  else if out.status = some 1 then
    ({ s with count_lost := (s.count_lost + 1) % 256 }, [])
  else if out.status = some 2 then
    ({ s with count_stop := (s.count_stop + 1) % 256 }, [])
  else (s, [])

/-- Iterated control ticks with a fixed measurement (state part only):
a run of consecutive control periods that all see the same line pattern. -/
def iter_tick (meas : Nat) (junkR junkL : Int) : Nat → FaultState → FaultState
  | 0, s => s
  | n + 1, s => iter_tick meas junkR junkL n (control_tick meas junkR junkL s).1

/-- The display trace of one of the blink loops in `main` (main.c lines
139-144 and 158-163): `n` iterations of full-on / delay / full-off / delay. -/
def blink_seq : Nat → Nat → List Act
  | 0, _ => []
  | n + 1, t =>
      Act.loadByte 0xFF :: Act.delayMs t :: Act.loadByte 0x00 ::
        Act.delayMs t :: blink_seq n t

/-- The `count_lost > 10` recovery block of the main loop (main.c lines
134-152): pause, blink 10 times at 100 ms, clear the go latch (current and
previous) and the lost counter.  The stop counter is not touched. -/
def check_lost (s : FaultState) : FaultState × List Act :=
  if s.count_lost > 10 then
    ({ s with go_flag := 0, go_flag_0 := 0, count_lost := 0 },
     Act.pauseDelivery :: blink_seq 10 100)
  else (s, [])

/-- The `count_stop > 10` recovery block of the main loop (main.c lines
154-174): pause, blink 2 times at 1000 ms, turn around, clear the go latch
(current and previous) and the stop counter, enter sleep, and on wake
re-enable the ADC interrupt. -/
def check_stop (s : FaultState) : FaultState × List Act :=
  if s.count_stop > 10 then
    ({ s with go_flag := 0, go_flag_0 := 0, count_stop := 0 },
     Act.pauseDelivery :: blink_seq 2 1000 ++
       [Act.motorsTurnAround, Act.enterSleepMode,
        Act.enableADCInterrupt])
  else (s, [])

/-- One control period as the scenario model: the ISR control tick followed
by one pass of the main-loop threshold polls (lost check at main.c line 134
before stop check at line 154).  Extra main-loop polls between ticks are
no-ops while the counters stay at or below 10. -/
def period (meas : Nat) (junkR junkL : Int) (s : FaultState) :
    FaultState × List Act :=
  let t := control_tick meas junkR junkL s
  let l := check_lost t.1
  let p := check_stop l.1
  (p.1, t.2 ++ l.2 ++ p.2)

/-- `n` consecutive control periods with a fixed measurement, collecting the
whole emitted trace. -/
def run_periods (meas : Nat) (junkR junkL : Int) :
    Nat → FaultState → FaultState × List Act
  | 0, s => (s, [])
  | n + 1, s =>
      let p := period meas junkR junkL s
      let r := run_periods meas junkR junkL n p.1
      (r.1, p.2 ++ r.2)

/-- Modelled from the spec: `convert_measurement_to_binary` is declared in
ir_sensors.h, which is not part of the repository.  Spec section 4.1 step 3:
"raw analog value ≥ fixed cutoff (3500 ...) ⇒ bit set; otherwise cleared". -/
def convert_measurement_to_binary (reading cutoff : Nat) : Bool :=
  cutoff ≤ reading

/-- `process_measurement` (main.c lines 227-245): binarize `reading` and set
or clear the bit of the current sensor in the measurement byte `meas` and the
display byte `disp`.  The C complement-and-mask on a `char` is the 8-bit
mask `255 ^^^ (1 <<< i)`. -/
def process_measurement (reading : Nat) (sensor_read : SensorId)
    (meas disp : Nat) : Nat × Nat :=
  let val := convert_measurement_to_binary reading ADC_CUTOFF
  if val then
    (meas ||| (1 <<< sensor_read.index), disp ||| (1 <<< sensor_read.led))
  else
    (meas &&& (255 ^^^ (1 <<< sensor_read.index)),
     disp &&& (255 ^^^ (1 <<< sensor_read.led)))

/-- `update_sensor` (main.c lines 248-268), with the two cursor globals made
explicit: returns (new `sensor_read`, new `sensor_next`, returned reading
count). -/
def update_sensor (sensor_read sensor_next : SensorId) (reading : Nat) :
    SensorId × SensorId × Nat :=
  if sensor_next ≠ sensor_read then (sensor_next, sensor_next, 0)
  else if reading = READINGS_MAX then
    (sensor_read, sensor_read.next_sensor, reading)
  else (sensor_read, sensor_next, reading)

/-- The sampling-pipeline state touched by the main polling loop: the two
ring cursors (main.c lines 76-77), the local `adc_reading_number` (line 98),
and the three byte accumulators (lines 67-68, 84). -/
structure SampleState where
  sensor_read : SensorId
  sensor_next : SensorId
  adc_reading_number : Nat
  IR_temp_array : Nat
  IR_meas_array : Nat
  display_value : Nat
deriving DecidableEq

/-- The publish check of the main loop (main.c lines 114-117): only when the
read cursor is back on IR_1 with the reading counter at 0 is the accumulated
pattern copied into the externally visible `IR_meas_array`. -/
def publish_step (s : SampleState) : SampleState :=
  if s.sensor_read = SensorId.IR_1 ∧ s.adc_reading_number = 0 then
    { s with IR_meas_array := s.IR_temp_array }
  else s

/-- The `adc_flag` branch of the main loop (main.c lines 119-132) processing
one arrived sample: bump the reading counter; unless this is the first
reading of the stint, fold the sample in and run the ring-advance rule. -/
def adc_step (reading : Nat) (s : SampleState) : SampleState :=
  let n := (s.adc_reading_number + 1) % 256
  if n ≠ 1 then
    let pd := process_measurement reading s.sensor_read s.IR_temp_array
      s.display_value
    let u := update_sensor s.sensor_read s.sensor_next n
    { sensor_read := u.1, sensor_next := u.2.1, adc_reading_number := u.2.2,
      IR_temp_array := pd.1, IR_meas_array := s.IR_meas_array,
      display_value := pd.2 }
  else { s with adc_reading_number := n }

/-- One main-loop iteration in which exactly one new ADC sample is pending:
the publish check (line 114) runs before the `adc_flag` branch (line 119). -/
def loop_step (reading : Nat) (s : SampleState) : SampleState :=
  adc_step reading (publish_step s)

/-- Feed a sequence of arrived ADC samples through successive main-loop
iterations. -/
def run_samples (vs : List Nat) (s : SampleState) : SampleState :=
  vs.foldl (fun st v => loop_step v st) s

/-- Modelled from the spec: `struct Encoder` is defined in encoders.h, which
is not part of the repository.  Spec section 3: two input-pin identifiers, a
shift history of the last two pin-pairs (held in an 8-bit register per the
source usage), and a running signed tick count. -/
structure Encoder where
  pin_a : Nat
  pin_b : Nat
  reading : Nat
  count : Int
deriving DecidableEq

/-- The two per-wheel encoder globals `encoder_A`, `encoder_B`
(main.c lines 80-81). -/
structure EncoderPair where
  encoder_A : Encoder
  encoder_B : Encoder
deriving DecidableEq

/-- The 16-entry quadrature transition table of `update_encoders`
(main.c lines 277-282), indexed by (old pair << 2) | new pair. -/
def lookup_table : List Int :=
  [0, -1, 1, 0,
   1, 0, 0, -1,
   -1, 0, 0, 1,
   0, 1, -1, 0]

/-- `update_encoders` (main.c lines 271-290): take the high nibble of PORTB,
shift the low two of those bits into `encoder_A.reading` (an 8-bit store),
and add the table entry at the low four history bits to `encoder_A.count`.
`encoder_B` is never mentioned by the function body. -/
def update_encoders (portb : Nat) (s : EncoderPair) : EncoderPair :=
  let enc_dual := (portb &&& 0xF0) >>> 4
  let shifted := (s.encoder_A.reading <<< 2) % 256
  let test := enc_dual &&& 0b0011
  let r := shifted ||| test
  let a := s.encoder_A
  { s with encoder_A :=
      ⟨a.pin_a, a.pin_b, r, a.count + lookup_table.getD (r &&& 0x0F) 0⟩ }

/-- The button/debounce state: the go latch and its raw samples
(main.c lines 58-61) plus the two interrupt-enable bits driven by the
debounce machinery. -/
structure ButtonState where
  go_flag : Nat
  button_state : Bool
  button_state_0 : Bool
  int0ie : Bool
  ccp7ie : Bool
deriving DecidableEq

/-- Modelled from the spec: `go_button_handler` lives in go_button.h, which
is not part of the repository.  Spec section 4.4: a confirmed event
"invert[s] the go/stop latch". -/
def go_button_handler (go : Nat) : Nat :=
  if go = 0 then 1 else 0

/-- The INT0 branch of `HiPriISR` (main.c lines 359-371): arm the one-shot
debounce timer (enable CCP7, disable INT0) and record the raw line level at
edge time in `button_state_0`. -/
def button_edge (rb0 : Bool) (s : ButtonState) : ButtonState :=
  { s with ccp7ie := true, int0ie := false, button_state_0 := rb0 }

/-- The CCP7 branch of `LoPriISR` (main.c lines 403-416): on debounce-timer
expiry sample the line again; only if both samples are high is the go latch
handed to `go_button_handler`; then disable CCP7 and re-enable INT0. -/
def debounce_fire (rb0 : Bool) (s : ButtonState) : ButtonState :=
  let s1 := { s with button_state := rb0 }
  let s2 :=
    if s1.button_state && s1.button_state_0 then
      { s1 with go_flag := go_button_handler s1.go_flag }
    else s1
  { s2 with ccp7ie := false, int0ie := true }

/-- Helper: with pattern 000 the control tick increments only the lost
counter and emits nothing, independently of the junk duty inputs. -/
theorem control_tick_meas0 (junkR junkL : Int) (s : FaultState) :
    control_tick 0 junkR junkL s =
      ({ s with count_lost := (s.count_lost + 1) % 256 }, []) := rfl

/-- Helper: with pattern 111 the control tick increments only the stop
counter and emits nothing, independently of the junk duty inputs. -/
theorem control_tick_meas7 (junkR junkL : Int) (s : FaultState) :
    control_tick 7 junkR junkL s =
      ({ s with count_stop := (s.count_stop + 1) % 256 }, []) := rfl

/-- Helper: a pattern-000 period does not depend on the junk duty inputs. -/
theorem period_meas0_junk (junkR junkL : Int) (s : FaultState) :
    period 0 junkR junkL s = period 0 0 0 s := by
  unfold period
  rw [control_tick_meas0, control_tick_meas0]

/-- Helper: a pattern-111 period does not depend on the junk duty inputs. -/
theorem period_meas7_junk (junkR junkL : Int) (s : FaultState) :
    period 7 junkR junkL s = period 7 0 0 s := by
  unfold period
  rw [control_tick_meas7, control_tick_meas7]

/-- Helper: runs of pattern-000 periods do not depend on the junk duty
inputs. -/
theorem run_periods_meas0_junk (junkR junkL : Int) :
    ∀ (n : Nat) (s : FaultState),
      run_periods 0 junkR junkL n s = run_periods 0 0 0 n s := by
  intro n
  induction n with
  | zero => intro s; rfl
  | succ n ih =>
      intro s
      simp only [run_periods, period_meas0_junk, ih]

/-- Helper: runs of pattern-111 periods do not depend on the junk duty
inputs. -/
theorem run_periods_meas7_junk (junkR junkL : Int) :
    ∀ (n : Nat) (s : FaultState),
      run_periods 7 junkR junkL n s = run_periods 7 0 0 n s := by
  intro n
  induction n with
  | zero => intro s; rfl
  | succ n ih =>
      intro s
      simp only [run_periods, period_meas7_junk, ih]

/-- Claim C1: the steering classifier is a pure function of the 3-bit line
pattern realizing exactly the table of spec section 4.2: pattern 001 yields
(right 50, left 0, normal), 011 yields (35, 15, normal), 010 yields
(25, 25, normal), 110 yields (15, 35, normal), 100 yields (0, 50, normal);
patterns 000 and 101 yield status lost and pattern 111 yields status stop,
and in the fault cases the duty outputs are left untouched.  The three
statuses partition the 8 patterns exactly this way; being a Lean function of
its arguments, identical inputs give identical outputs. -/
theorem claim1_steering_table (dcR dcL : Int) :
    convert_array_to_inputs dcR dcL 1 = ⟨50, 0, some 0⟩ ∧
    convert_array_to_inputs dcR dcL 3 = ⟨35, 15, some 0⟩ ∧
    convert_array_to_inputs dcR dcL 2 = ⟨25, 25, some 0⟩ ∧
    convert_array_to_inputs dcR dcL 6 = ⟨15, 35, some 0⟩ ∧
    convert_array_to_inputs dcR dcL 4 = ⟨0, 50, some 0⟩ ∧
    convert_array_to_inputs dcR dcL 0 = ⟨dcR, dcL, some 1⟩ ∧
    convert_array_to_inputs dcR dcL 5 = ⟨dcR, dcL, some 1⟩ ∧
    convert_array_to_inputs dcR dcL 7 = ⟨dcR, dcL, some 2⟩ :=
  ⟨rfl, rfl, rfl, rfl, rfl, rfl, rfl, rfl⟩

/-- Claim C2 counterexample: the lost-recovery block clears only
`count_lost`, not both fault counters.  From the delivering state with
`count_lost = 10` and `count_stop = 1` (reachable from a fresh delivering
state by one stop period followed by ten lost periods, as the amended
theorem shows), the lost-status period that crosses the threshold fires the
recovery (nonempty trace) yet leaves `count_stop` at 1, where the claim
requires both counters cleared to 0. -/
theorem claim2_stop_counter_not_cleared :
    (period 0 0 0 ⟨1, 1, 10, 1⟩).1.count_stop = 1 ∧
    (period 0 0 0 ⟨1, 1, 10, 1⟩).2 ≠ [] := by
  decide

/-- Claim C2 (amended): when the lost counter exceeds 10 — on the 11th
consecutive lost-status control period and not on the 10th — the main loop
pauses delivery, blinks the full display 10 times at 100 ms on / 100 ms off,
and clears the go latch (current and previous value) and the lost counter to
0; the stop counter is left unchanged by this recovery path.  Scenario from
the delivering state: one stop period, then ten lost periods emit no recovery
action and leave `count_lost = 10`; the eleventh lost period emits pause
followed by the 10-blink trace and resets the go latch and `count_lost`,
with `count_stop` still 1. -/
theorem claim2_lost_recovery (junkR junkL : Int) :
    period 7 junkR junkL ⟨1, 1, 0, 0⟩ = (⟨1, 1, 0, 1⟩, []) ∧
    run_periods 0 junkR junkL 10 ⟨1, 1, 0, 1⟩ = (⟨1, 1, 10, 1⟩, []) ∧
    period 0 junkR junkL ⟨1, 1, 10, 1⟩ =
      (⟨0, 0, 0, 1⟩, Act.pauseDelivery :: blink_seq 10 100) := by
  refine ⟨?_, ?_, ?_⟩
  · rw [period_meas7_junk]; decide
  · rw [run_periods_meas0_junk]; decide
  · rw [period_meas0_junk]; decide

/-- Claim C3: when the stop counter exceeds 10, the main loop pauses
delivery, blinks the full display 2 times at 1000 ms on / 1000 ms off,
invokes the external turn-around maneuver, clears the go latch (current and
previous value) and the stop counter to 0, enters the external low-power
sleep mode, and on wake re-enables the ADC interrupt.  Scenario from the
delivering state: one lost period, then ten stop periods emit no recovery
action and leave `count_stop = 10`; the eleventh stop period emits the full
recovery trace in source order and clears the go latch and `count_stop`
(the lost counter, still 1, is untouched, matching the claim which names
only the stop counter). -/
theorem claim3_stop_recovery (junkR junkL : Int) :
    period 0 junkR junkL ⟨1, 1, 0, 0⟩ = (⟨1, 1, 1, 0⟩, []) ∧
    run_periods 7 junkR junkL 10 ⟨1, 1, 1, 0⟩ = (⟨1, 1, 1, 10⟩, []) ∧
    period 7 junkR junkL ⟨1, 1, 1, 10⟩ =
      (⟨0, 0, 1, 0⟩, Act.pauseDelivery :: blink_seq 2 1000 ++
        [Act.motorsTurnAround, Act.enterSleepMode, Act.enableADCInterrupt]) := by
  refine ⟨?_, ?_, ?_⟩
  · rw [period_meas0_junk]; decide
  · rw [run_periods_meas7_junk]; decide
  · rw [period_meas7_junk]; decide

/-- Helper: over a run of control periods that all classify as lost
(status 1), the lost counter advances by exactly one per tick while it stays
within the 8-bit range, and nothing else in the fault state moves. -/
theorem iter_tick_lost_add (meas : Nat) (junkR junkL : Int)
    (h : (convert_array_to_inputs junkR junkL meas).status = some 1) :
    ∀ (n : Nat) (s : FaultState), s.count_lost + n ≤ 255 →
      iter_tick meas junkR junkL n s =
        { s with count_lost := s.count_lost + n } := by
  intro n
  induction n with
  | zero => intro s _; rfl
  | succ n ih =>
      intro s hs
      have hstep : (control_tick meas junkR junkL s).1 =
          { s with count_lost := s.count_lost + 1 } := by
        simp [control_tick, h]
        omega
      rw [iter_tick, hstep, ih _ (by simp; omega)]
      simp
      omega

/-- Helper: over a run of control periods that all classify as stop
(status 2), the stop counter advances by exactly one per tick while it stays
within the 8-bit range, and nothing else in the fault state moves. -/
theorem iter_tick_stop_add (meas : Nat) (junkR junkL : Int)
    (h : (convert_array_to_inputs junkR junkL meas).status = some 2) :
    ∀ (n : Nat) (s : FaultState), s.count_stop + n ≤ 255 →
      iter_tick meas junkR junkL n s =
        { s with count_stop := s.count_stop + n } := by
  intro n
  induction n with
  | zero => intro s _; rfl
  | succ n ih =>
      intro s hs
      have hstep : (control_tick meas junkR junkL s).1 =
          { s with count_stop := s.count_stop + 1 } := by
        simp [control_tick, h]
        omega
      rw [iter_tick, hstep, ih _ (by simp; omega)]
      simp
      omega

set_option maxRecDepth 8192 in
/-- Claim C5 counterexample.  First part: "at most one counter changes per
control period" fails — from the reachable state with `count_lost = 1` and
`count_stop = 1` (reached from the zero state by one lost tick and one stop
tick, as the first two conjuncts show), a normal-status period (pattern 010)
changes BOTH counters, resetting each from 1 to 0.  Second part: the
counters are 8-bit, so across 256 consecutive lost-status periods the lost
counter wraps from 255 back to 0, violating unbounded monotonic
non-decrease within a same-fault run. -/
theorem claim5_both_counters_change_and_wrap :
    (control_tick 7 0 0 (control_tick 0 0 0 ⟨0, 0, 0, 0⟩).1).1 =
      ⟨0, 0, 1, 1⟩ ∧
    (control_tick 2 0 0 ⟨0, 0, 1, 1⟩).1.count_lost = 0 ∧
    (control_tick 2 0 0 ⟨0, 0, 1, 1⟩).1.count_stop = 0 ∧
    (iter_tick 0 0 0 255 ⟨0, 0, 0, 0⟩).count_lost = 255 ∧
    (iter_tick 0 0 0 256 ⟨0, 0, 0, 0⟩).count_lost = 0 := by
  decide

/-- Claim C5 (amended): on every control-period tick with a 3-bit pattern,
exactly one of three counter updates happens, determined by the classifier
status: normal resets both `count_lost` and `count_stop` to exactly 0 and
drives the motors; lost increments only `count_lost` (modulo 256); stop
increments only `count_stop` (modulo 256).  Hence at most one counter
INCREMENTS per period (a normal period may change both by clearing them),
and across a run of consecutive same-fault periods the faulting counter
grows by exactly one per period while it stays within the 8-bit range —
hence is monotonically non-decreasing on runs shorter than 256 periods —
while the other counter is untouched. -/
theorem claim5_counter_updates (s : FaultState) (junkR junkL : Int)
    (meas : Nat) (hm : meas < 8) :
    ((convert_array_to_inputs junkR junkL meas).status = some 0 ∨
     (convert_array_to_inputs junkR junkL meas).status = some 1 ∨
     (convert_array_to_inputs junkR junkL meas).status = some 2) ∧
    ((convert_array_to_inputs junkR junkL meas).status = some 0 →
      control_tick meas junkR junkL s =
        ({ s with count_lost := 0, count_stop := 0 },
         [Act.motorsDrive (convert_array_to_inputs junkR junkL meas).dcR
            (convert_array_to_inputs junkR junkL meas).dcL])) ∧
    ((convert_array_to_inputs junkR junkL meas).status = some 1 →
      control_tick meas junkR junkL s =
        ({ s with count_lost := (s.count_lost + 1) % 256 }, [])) ∧
    ((convert_array_to_inputs junkR junkL meas).status = some 2 →
      control_tick meas junkR junkL s =
        ({ s with count_stop := (s.count_stop + 1) % 256 }, [])) ∧
    ((convert_array_to_inputs junkR junkL meas).status = some 1 →
      ∀ n : Nat, s.count_lost + n ≤ 255 →
        (iter_tick meas junkR junkL n s).count_lost = s.count_lost + n ∧
        (iter_tick meas junkR junkL n s).count_stop = s.count_stop) ∧
    ((convert_array_to_inputs junkR junkL meas).status = some 2 →
      ∀ n : Nat, s.count_stop + n ≤ 255 →
        (iter_tick meas junkR junkL n s).count_stop = s.count_stop + n ∧
        (iter_tick meas junkR junkL n s).count_lost = s.count_lost) := by
  refine ⟨?_, ?_, ?_, ?_, ?_, ?_⟩
  · interval_cases meas <;> simp [convert_array_to_inputs]
  · intro h; simp [control_tick, h]
  · intro h; simp [control_tick, h]
  · intro h; simp [control_tick, h]
  · intro h n hb
    rw [iter_tick_lost_add meas junkR junkL h n s hb]
    exact ⟨rfl, rfl⟩
  · intro h n hb
    rw [iter_tick_stop_add meas junkR junkL h n s hb]
    exact ⟨rfl, rfl⟩

/-- Claim C5 witness: the amended theorem applied at the zero fault state
with pattern 000 (lost) and a three-period run. -/
theorem claim5_witness :
    (iter_tick 0 0 0 3 ⟨0, 0, 0, 0⟩).count_lost = 0 + 3 ∧
    (iter_tick 0 0 0 3 ⟨0, 0, 0, 0⟩).count_stop = 0 :=
  (claim5_counter_updates ⟨0, 0, 0, 0⟩ 0 0 0 (by decide)).2.2.2.2.1 rfl 3
    (by decide)

/-- Claim C4 counterexample: a confirmed RELEASE does not flip the go latch.
With the latch running (`go_flag = 1`), arm on a falling edge (line low,
recorded sample false) and let the debounce timer fire with the line still
low: the two samples agree, so the claim requires the latch to be inverted
to 0; the code only inverts when BOTH samples are high, so the latch stays
1.  (`go_button_handler 1 = 0` witnesses what an inversion would have
produced.) -/
theorem claim4_release_does_not_flip :
    (debounce_fire false
        (button_edge false ⟨1, false, false, true, false⟩)).go_flag = 1 ∧
    go_button_handler 1 = 0 := by
  decide

/-- Claim C4 (amended): after a raw button edge arms the debouncer
(recording the line level and disabling the edge interrupt), when the
debounce timer fires the line is sampled again; the go latch is inverted
exactly once only when both the recorded and the second sample are high
(a confirmed press).  A confirmed release (both samples low) and any
disagreement between the two samples leave the go latch unchanged.  Either
way the machine returns to idle: the debounce compare interrupt is disabled
and the edge interrupt re-enabled.  In particular a raw transition reversed
before the timer fires (second sample differing from the recorded one)
never flips the latch. -/
theorem claim4_debounce (s : ButtonState) (b0 bf : Bool) :
    (button_edge b0 s).int0ie = false ∧
    (button_edge b0 s).ccp7ie = true ∧
    (button_edge b0 s).button_state_0 = b0 ∧
    (b0 = true → bf = true →
      (debounce_fire bf (button_edge b0 s)).go_flag =
        go_button_handler s.go_flag) ∧
    (¬(b0 = true ∧ bf = true) →
      (debounce_fire bf (button_edge b0 s)).go_flag = s.go_flag) ∧
    (debounce_fire bf (button_edge b0 s)).int0ie = true ∧
    (debounce_fire bf (button_edge b0 s)).ccp7ie = false := by
  cases b0 <;> cases bf <;>
    simp [button_edge, debounce_fire, go_button_handler]

/-- Claim C4 witness: the amended theorem applied to a confirmed press from
the paused state: both samples high inverts the latch from 0 to
`go_button_handler 0 = 1`. -/
theorem claim4_witness :
    (debounce_fire true
        (button_edge true ⟨0, false, false, true, false⟩)).go_flag =
      go_button_handler 0 :=
  (claim4_debounce ⟨0, false, false, true, false⟩ true true).2.2.2.1 rfl rfl

/-- Claim C7: `update_sensor` implements the ring-advance rule: if the next
cursor already differs from the read cursor, the read cursor adopts it and
the reading counter resets to 0; otherwise, at reading count
`READINGS_MAX` (2) the next cursor is pre-advanced to the ring successor
with the counter returned unchanged; in all other cases everything is
unchanged.  Consequently, starting a stint at sensor `r` (both cursors on
`r`, counter 0), the next cursor is still `r` after the first arrived
sample and has advanced to the ring successor precisely after the second —
exactly 2 samples are taken before the ring cursor advances, the adoption
happening on the following call. -/
theorem claim7_update_sensor (r nx : SensorId) (n : Nat) :
    (nx ≠ r → update_sensor r nx n = (nx, nx, 0)) ∧
    (nx = r → n = READINGS_MAX → update_sensor r nx n = (r, r.next_sensor, n)) ∧
    (nx = r → n ≠ READINGS_MAX → update_sensor r nx n = (r, nx, n)) ∧
    (∀ t m d v1 : Nat,
      (loop_step v1 ⟨r, r, 0, t, m, d⟩).sensor_read = r ∧
      (loop_step v1 ⟨r, r, 0, t, m, d⟩).sensor_next = r ∧
      (loop_step v1 ⟨r, r, 0, t, m, d⟩).adc_reading_number = 1) ∧
    (∀ t m d v1 v2 : Nat,
      (loop_step v2 (loop_step v1 ⟨r, r, 0, t, m, d⟩)).sensor_read = r ∧
      (loop_step v2 (loop_step v1 ⟨r, r, 0, t, m, d⟩)).sensor_next =
        r.next_sensor ∧
      (loop_step v2 (loop_step v1 ⟨r, r, 0, t, m, d⟩)).adc_reading_number =
        2) := by
  refine ⟨?_, ?_, ?_, ?_, ?_⟩
  · intro h; simp [update_sensor, h]
  · intro h1 h2; subst h1; subst h2; simp [update_sensor]
  · intro h1 h2; subst h1; simp [update_sensor, h2]
  · intro t m d v1
    cases r <;>
      simp [loop_step, publish_step, adc_step, update_sensor,
        READINGS_MAX]
  · intro t m d v1 v2
    cases r <;>
      simp [loop_step, publish_step, adc_step, update_sensor,
        READINGS_MAX, SensorId.next_sensor]

/-- Claim C7 witness: the theorem applied at concrete cursors: a
pre-advanced next cursor is adopted with the counter reset to 0. -/
theorem claim7_witness :
    update_sensor SensorId.IR_2 SensorId.IR_3 1 =
      (SensorId.IR_3, SensorId.IR_3, 0) :=
  (claim7_update_sensor SensorId.IR_2 SensorId.IR_3 1).1 (by decide)

/-- Claim C8 counterexample: the canonical forward history sequence
0b0001 → 0b0111 → 0b1110 → 0b1000 sums to −4 through the lookup table —
a NEGATIVE net tick delta, not "0 or a small positive integer" as the
claim states.  (Each of the four histories is a single-bit transition that
the table maps to −1.) -/
theorem claim8_forward_sequence_negative :
    lookup_table.getD 1 0 + lookup_table.getD 7 0 + lookup_table.getD 14 0 +
        lookup_table.getD 8 0 = -4 ∧
    (-4 : Int) < 0 := by
  decide

/-- Claim C8 (amended): for every 4-bit history `i` (old pair in the high
two bits, new pair in the low two), the table maps every transition in
which both quadrature bits change at once, and every no-change transition,
to increment 0, and every single-bit transition to +1 or −1; swapping the
old and new pairs negates the table entry.  The forward history sequence
0b0001 → 0b0111 → 0b1110 → 0b1000 nets −4 — a small NEGATIVE delta (the
table assigns this canonical cycle the reverse orientation) — and the
reversed sequence nets exactly the negated delta +4. -/
theorem claim8_encoder_table (i : Nat) (hi : i < 16) :
    ((i >>> 2) ^^^ (i &&& 3) = 3 ∨ i >>> 2 = i &&& 3 →
      lookup_table.getD i 0 = 0) ∧
    ((i >>> 2) ^^^ (i &&& 3) = 1 ∨ (i >>> 2) ^^^ (i &&& 3) = 2 →
      lookup_table.getD i 0 = 1 ∨ lookup_table.getD i 0 = -1) ∧
    lookup_table.getD (((i &&& 3) <<< 2) ||| (i >>> 2)) 0 =
      -(lookup_table.getD i 0) ∧
    lookup_table.getD 1 0 + lookup_table.getD 7 0 + lookup_table.getD 14 0 +
        lookup_table.getD 8 0 = -4 ∧
    lookup_table.getD 4 0 + lookup_table.getD 13 0 + lookup_table.getD 11 0 +
        lookup_table.getD 2 0 = 4 := by
  interval_cases i <;> decide

/-- Claim C8 witness: the amended theorem applied at history 0b0011 (both
bits changed at once): the table yields 0. -/
theorem claim8_witness : lookup_table.getD 3 0 = 0 :=
  (claim8_encoder_table 3 (by decide)).1 (Or.inl (by decide))

/-- Claim C9: every invocation of `update_encoders` modifies only the first
wheel: `encoder_B` is returned bit-for-bit unchanged (as are the pin fields
of `encoder_A`), while `encoder_A.reading` receives the 8-bit left-shift of
its old value with the two PORTB-derived bits (low two bits of the high
nibble of PORTB) or-ed in, and `encoder_A.count` receives the old count
plus the table entry at the low four bits of the new reading.  The second
wheel never accumulates ticks through this path. -/
theorem claim9_encoder_B_untouched (portb : Nat) (s : EncoderPair) :
    (update_encoders portb s).encoder_B = s.encoder_B ∧
    (update_encoders portb s).encoder_A.pin_a = s.encoder_A.pin_a ∧
    (update_encoders portb s).encoder_A.pin_b = s.encoder_A.pin_b ∧
    (update_encoders portb s).encoder_A.reading =
      ((s.encoder_A.reading <<< 2) % 256) |||
        (((portb &&& 0xF0) >>> 4) &&& 3) ∧
    (update_encoders portb s).encoder_A.count =
      s.encoder_A.count + lookup_table.getD
        ((((s.encoder_A.reading <<< 2) % 256) |||
            (((portb &&& 0xF0) >>> 4) &&& 3)) &&& 0x0F) 0 :=
  ⟨rfl, rfl, rfl, rfl, rfl⟩

/-- Helper: `process_measurement` writes only the (index < 3) bit of the
measurement byte, so a byte below 8 stays below 8. -/
theorem process_measurement_meas_lt_8 (v t d : Nat) (S : SensorId)
    (ht : t < 8) : (process_measurement v S t d).1 < 8 := by
  cases S <;> interval_cases t <;>
    cases hb : convert_measurement_to_binary v ADC_CUTOFF <;>
      simp [process_measurement, hb, SensorId.index] <;> decide

/-- Claim C10: the three sensor index fields are 0, 1 and 2, and
`process_measurement` only ever sets or clears the bit at the current
sensor index, so both measurement bytes stay in 0..7 across every
main-loop iteration (`IR_temp_array` through the write, `IR_meas_array`
through the boundary copy); under that precondition every pattern reaching
`convert_array_to_inputs` hits one of the eight switch cases, so the
returned status is always an assigned value in {0, 1, 2} and the
uninitialized-status fall-through (`none` in the embedding) is
unreachable. -/
theorem claim10_status_always_assigned :
    (∀ S : SensorId, S.index < 3) ∧
    (∀ (v t d : Nat) (S : SensorId), t < 8 →
      (process_measurement v S t d).1 < 8) ∧
    (∀ (v : Nat) (s : SampleState),
      s.IR_temp_array < 8 → s.IR_meas_array < 8 →
      (loop_step v s).IR_temp_array < 8 ∧ (loop_step v s).IR_meas_array < 8) ∧
    (∀ (dcR dcL : Int) (m : Nat), m < 8 →
      (convert_array_to_inputs dcR dcL m).status = some 0 ∨
      (convert_array_to_inputs dcR dcL m).status = some 1 ∨
      (convert_array_to_inputs dcR dcL m).status = some 2) := by
  refine ⟨?_, ?_, ?_, ?_⟩
  · intro S; cases S <;> decide
  · intro v t d S ht; exact process_measurement_meas_lt_8 v t d S ht
  · intro v s h1 h2
    have hpub : (publish_step s).IR_temp_array < 8 ∧
        (publish_step s).IR_meas_array < 8 ∧
        (publish_step s).sensor_read = s.sensor_read ∧
        (publish_step s).display_value = s.display_value ∧
        (publish_step s).adc_reading_number = s.adc_reading_number ∧
        (publish_step s).sensor_next = s.sensor_next := by
      unfold publish_step
      by_cases hg : (s.sensor_read = SensorId.IR_1 ∧ s.adc_reading_number = 0)
      · simp [hg, h1]
      · simp [hg, h1, h2]
    rcases hpub with ⟨hp1, hp2, _, _, _, _⟩
    unfold loop_step adc_step
    by_cases hn : (((publish_step s).adc_reading_number + 1) % 256 ≠ 1)
    · simp only [if_pos hn]
      exact ⟨process_measurement_meas_lt_8 _ _ _ _ hp1, hp2⟩
    · simp only [if_neg hn]
      exact ⟨hp1, hp2⟩
  · intro dcR dcL m hm
    interval_cases m <;> simp [convert_array_to_inputs]

/-- Claim C10 witness: the theorem applied at a bright reading on IR_2 with
accumulator 5, and at pattern 6: the written byte stays below 8 and the
status is an assigned normal. -/
theorem claim10_witness :
    (process_measurement 4000 SensorId.IR_2 5 0).1 < 8 ∧
    ((convert_array_to_inputs 0 0 6).status = some 0 ∨
     (convert_array_to_inputs 0 0 6).status = some 1 ∨
     (convert_array_to_inputs 0 0 6).status = some 2) :=
  ⟨claim10_status_always_assigned.2.1 4000 5 0 SensorId.IR_2 (by decide),
   claim10_status_always_assigned.2.2.2 0 0 6 (by decide)⟩

/-- Helper: feeding a concatenation of sample streams is feeding one after
the other. -/
theorem run_samples_append (a b : List Nat) (s : SampleState) :
    run_samples (a ++ b) s = run_samples b (run_samples a s) := by
  simp [run_samples, List.foldl_append]

/-- Helper: one full three-sample stint of the sampling loop starting with
both cursors on `S` and the reading counter at 0: the first sample is
skipped, the second and third are folded into the accumulators, the cursors
adopt the ring successor with the counter back at 0, and the old
accumulated byte is published exactly when `S` is IR_1. -/
theorem stint_eval (S : SensorId) (t m d w1 w2 w3 : Nat) :
    run_samples [w1, w2, w3] ⟨S, S, 0, t, m, d⟩ =
      ⟨S.next_sensor, S.next_sensor, 0,
        (process_measurement w3 S (process_measurement w2 S t d).1
          (process_measurement w2 S t d).2).1,
        if S = SensorId.IR_1 then t else m,
        (process_measurement w3 S (process_measurement w2 S t d).1
          (process_measurement w2 S t d).2).2⟩ := by
  cases S <;>
    cases hb2 : convert_measurement_to_binary w2 ADC_CUTOFF <;>
    cases hb3 : convert_measurement_to_binary w3 ADC_CUTOFF <;>
      simp [run_samples, loop_step, publish_step, adc_step,
        process_measurement, update_sensor, SensorId.next_sensor,
        READINGS_MAX, hb2, hb3]

/-- Claim C6 counterexample.  The cycle is NOT 2 samples per sensor and the
published bit does NOT reflect the second sample.  From the cycle-boundary
state, after 6 samples the read cursor sits at IR_3 — the round-robin cycle
is not complete, refuting the 2-samples-per-sensor accounting.  Feeding the
9-sample stream in which every sensor sees (settle 0, second 4000, third 0),
the completed cycle publishes pattern 0 even though every sensor's second
sample 4000 is above the cutoff 3500 (the claim requires every bit set):
each bit set by the second sample is overwritten by the third sample of the
same sensor before publication. -/
theorem claim6_second_sample_overwritten :
    (run_samples [0, 4000, 0, 0, 4000, 0]
        ⟨SensorId.IR_1, SensorId.IR_1, 0, 0, 0, 0⟩).sensor_read =
      SensorId.IR_3 ∧
    (publish_step (run_samples [0, 4000, 0, 0, 4000, 0, 0, 4000, 0]
        ⟨SensorId.IR_1, SensorId.IR_1, 0, 0, 0, 0⟩)).IR_meas_array = 0 ∧
    (3500 : Nat) ≤ 4000 := by
  decide

/-- Claim C6 (amended): a complete round-robin cycle consumes 3 ADC samples
per sensor (9 in all: the reading counter runs 1, 2, 3 per stint, the third
processed sample being attributed to the still-current sensor before the
cursor adoption).  The pattern is swapped into `IR_meas_array` only when the
read cursor is back at IR_1 with the reading counter 0 — never mid-cycle,
and during the cycle the visible value is still the previously accumulated
byte `t`.  The pattern published at the next boundary has, for each sensor,
the bit at that sensor's fixed index equal to 1 iff the sensor's THIRD
(last) sample is at or above the cutoff 3500, independent of traversal
order; the first (settling) sample of each stint is never processed, and
the second, though folded in, is always overwritten by the third. -/
theorem claim6_published_pattern (t m d v1 v2 v3 v4 v5 v6 v7 v8 v9 : Nat)
    (ht : t < 8) :
    (∀ s : SampleState,
      ¬(s.sensor_read = SensorId.IR_1 ∧ s.adc_reading_number = 0) →
      publish_step s = s) ∧
    (run_samples [v1, v2, v3, v4, v5, v6, v7, v8, v9]
        ⟨SensorId.IR_1, SensorId.IR_1, 0, t, m, d⟩).sensor_read =
      SensorId.IR_1 ∧
    (run_samples [v1, v2, v3, v4, v5, v6, v7, v8, v9]
        ⟨SensorId.IR_1, SensorId.IR_1, 0, t, m, d⟩).adc_reading_number = 0 ∧
    (run_samples [v1, v2, v3, v4, v5, v6, v7, v8, v9]
        ⟨SensorId.IR_1, SensorId.IR_1, 0, t, m, d⟩).IR_meas_array = t ∧
    (publish_step (run_samples [v1, v2, v3, v4, v5, v6, v7, v8, v9]
        ⟨SensorId.IR_1, SensorId.IR_1, 0, t, m, d⟩)).IR_meas_array =
      (if 3500 ≤ v3 then 1 else 0) + (if 3500 ≤ v6 then 2 else 0) +
        (if 3500 ≤ v9 then 4 else 0) := by
  have e1 : [v1, v2, v3, v4, v5, v6, v7, v8, v9] =
      [v1, v2, v3] ++ ([v4, v5, v6] ++ [v7, v8, v9]) := rfl
  refine ⟨?_, ?_, ?_, ?_, ?_⟩
  · intro s hs
    unfold publish_step
    rw [if_neg hs]
  · rw [e1, run_samples_append, run_samples_append, stint_eval, stint_eval,
      stint_eval]
    rfl
  · rw [e1, run_samples_append, run_samples_append, stint_eval, stint_eval,
      stint_eval]
  · rw [e1, run_samples_append, run_samples_append, stint_eval, stint_eval,
      stint_eval]
    simp [SensorId.next_sensor]
  · rw [e1, run_samples_append, run_samples_append, stint_eval, stint_eval,
      stint_eval]
    simp only [SensorId.next_sensor, publish_step]
    by_cases h2 : 3500 ≤ v2 <;> by_cases h3 : 3500 ≤ v3 <;>
      by_cases h5 : 3500 ≤ v5 <;> by_cases h6 : 3500 ≤ v6 <;>
      by_cases h8 : 3500 ≤ v8 <;> by_cases h9 : 3500 ≤ v9 <;>
      simp [process_measurement, convert_measurement_to_binary, ADC_CUTOFF,
        SensorId.index, SensorId.led, h2, h3, h5, h6, h8, h9] <;>
      interval_cases t <;> decide

/-- Claim C6 witness: the amended theorem applied at the all-clear boundary
state with third samples 4000 (IR_1), 0 (IR_2), 3600 (IR_3): the published
pattern is the 3-bit value 5. -/
theorem claim6_witness :
    (publish_step (run_samples [0, 0, 4000, 0, 0, 0, 0, 0, 3600]
        ⟨SensorId.IR_1, SensorId.IR_1, 0, 0, 0, 0⟩)).IR_meas_array =
      (if 3500 ≤ (4000 : Nat) then 1 else 0) +
        (if 3500 ≤ (0 : Nat) then 2 else 0) +
        (if 3500 ≤ (3600 : Nat) then 4 else 0) :=
  (claim6_published_pattern 0 0 0 0 0 4000 0 0 0 0 0 3600
    (by decide)).2.2.2.2
